import Mathlib

/-!
Verification of the choreography-monitoring core against its implementation.

The embedding models, faithfully to the TypeScript sources:
* the Task Tokens DynamoDB table (`Store`, lists of `CorrelationRecord`s; the
  table's key schema is partition key `entityId`, sort key `eventName`);
* the event-handler lambda (`handler`, from resources/event_handler/app.ts);
* the initialize-workflow lambda (`initHandler`);
* the `ChoreographyStateBuilder` / `ChoreographyState` constructs;
* the `Choreography.checkDefinition` validator.

DynamoDB attribute values that may be absent on an item (`taskToken`,
`executionArn`) are modelled as `Option String`; the engine-call records carry
the optional attribute value that the source reads at the call site.
-/

namespace Choreo

/-- One item of the Task Tokens table. The key is `(entityId, eventName)`
(partition key + sort key, so keys are unique in a real table); `taskToken`
and `executionArn` are non-key attributes that an item may lack (the Default
item right after `initialize_workflow` has only `executionArn`; a branch item
written by a wait state has only `taskToken`). -/
structure CorrelationRecord where
  entityId : String
  eventName : String
  taskToken : Option String
  executionArn : Option String
deriving DecidableEq, Repr, Inhabited

/-- The Task Tokens table contents, as a list of items. DynamoDB guarantees
key uniqueness; that invariant is `wellFormed` below and is assumed where a
claim needs it. -/
abbrev Store := List CorrelationRecord

/-- `dynamoDB.query` with `KeyConditionExpression: entityId = :hkey`:
all items of one partition. DynamoDB returns them in sort-key order, but the
model keeps the ambient list order; order independence is proved separately. -/
def queryByEntity (store : Store) (entityId : String) : Store :=
  store.filter (fun r => r.entityId == entityId)

/-- `dynamoDB.deleteItem` with the full key `(entityId, eventName)`. In a
real table at most one item carries the key; the model removes every item
with that key. -/
def deleteItem (store : Store) (entityId eventName : String) : Store :=
  store.filter (fun r => !(r.entityId == entityId && r.eventName == eventName))

/-- `dynamoDB.updateItem` upsert semantics: if an item with the key exists it
is updated in place by `upd`, otherwise a fresh item (the key plus the single
attribute set by the UpdateExpression) is created. -/
def dynamoUpdateItem (store : Store) (entityId eventName : String)
    (upd : CorrelationRecord → CorrelationRecord) (fresh : CorrelationRecord) : Store :=
  if store.any (fun r => r.entityId == entityId && r.eventName == eventName) then
    store.map (fun r =>
      if r.entityId == entityId && r.eventName == eventName then upd r else r)
  else
    store ++ [fresh]

/-- The wait-state entry write (`ChoreographyState` task parameters):
`UpdateExpression: "SET taskToken = :token"` keyed on `(entityId, eventName)`. -/
def updateItemToken (store : Store) (entityId eventName token : String) : Store :=
  dynamoUpdateItem store entityId eventName
    (fun r => { r with taskToken := some token })
    { entityId := entityId, eventName := eventName,
      taskToken := some token, executionArn := none }

/-- The Initiator's write (`initialize_workflow`):
`UpdateExpression: "SET executionArn = :execArn"` keyed on
`(entityId, "Default")` (the caller passes eventName `"Default"`). -/
def updateItemExecArn (store : Store) (entityId eventName arn : String) : Store :=
  dynamoUpdateItem store entityId eventName
    (fun r => { r with executionArn := some arn })
    { entityId := entityId, eventName := eventName,
      taskToken := none, executionArn := some arn }

/-- DynamoDB key uniqueness: no two items share `(entityId, eventName)`.
Every reachable real table state satisfies this. -/
abbrev wellFormed (store : Store) : Prop :=
  store.Pairwise (fun a b => ¬(a.entityId = b.entityId ∧ a.eventName = b.eventName))

/-- Number of items carrying a given key. -/
def countKey (store : Store) (entityId eventName : String) : Nat :=
  (store.filter (fun r => r.entityId == entityId && r.eventName == eventName)).length

/-- The correlator's input event (EventBridge rule target input:
`detail`, `eventName` = detail-type, `entityId`). `detail` is kept opaque. -/
structure DomainEvent where
  entityId : String
  eventName : String
  detail : String
deriving DecidableEq, Repr

/-- Calls the event handler makes against Step Functions. `sendTaskSuccess`
carries the `taskToken` attribute the source reads from the item and the
whole event as output (the source sends `JSON.stringify(event)`);
`stopExecution` carries the local `executionArn` variable, which is still
`undefined` (`none`) when no Default item was seen. -/
inductive EngineCall where
  | sendTaskSuccess (taskToken : Option String) (output : DomainEvent)
  | stopExecution (executionArn : Option String) (error : String) (cause : String)
deriving DecidableEq, Repr

/-- The diagnostic cause of the abort in the unmatched-event path. -/
def unexpectedEventCause (ev : DomainEvent) : String :=
  "Unexpected event " ++ ev.eventName ++ " for EntityId: " ++ ev.entityId ++ "."

/-- Outcome of one event-handler invocation: the returned value (`none`
models the `undefined` the source returns when the query yields no items),
the Step Functions calls made, and the table afterward. -/
structure HandlerResult where
  response : Option Nat
  calls : List EngineCall
  store : Store
deriving DecidableEq, Repr

/-- The `for` loop of the parallel branch: walk the queried items; a
`"Default"` item updates the local `executionArn` variable; an item whose
`eventName` equals the event's is an early exit with that item; otherwise
continue. Returns the match (if any) and the final `executionArn`. -/
def scanLoop (ev : DomainEvent) (execArn : Option String) :
    List CorrelationRecord → Option CorrelationRecord × Option String
  | [] => (none, execArn)
  | r :: rest =>
    if r.eventName = "Default" then
      scanLoop ev r.executionArn rest
    else if r.eventName = ev.eventName then
      (some r, execArn)
    else
      scanLoop ev execArn rest

/-- The event-handler lambda (resources/event_handler/app.ts). Queries the
partition of `ev.entityId`; with no items it falls through (returns
`undefined`); with exactly one item it sends task success with that item's
token unconditionally and deletes nothing; with several items it runs the
scan loop, and either resumes the match and deletes its key, or stops the
execution recorded by the Default item with a diagnostic cause. -/
def handler (store : Store) (ev : DomainEvent) : HandlerResult :=
  match queryByEntity store ev.entityId with
  | [] => { response := none, calls := [], store := store }
  | [r] =>
    { response := some 200
      calls := [EngineCall.sendTaskSuccess r.taskToken ev]
      store := store }
  | r₁ :: r₂ :: rest =>
    match scanLoop ev none (r₁ :: r₂ :: rest) with
    | (some r, _) =>
      { response := some 200
        calls := [EngineCall.sendTaskSuccess r.taskToken ev]
        store := deleteItem store ev.entityId ev.eventName }
    | (none, execArn) =>
      { response := some 200
        calls := [EngineCall.stopExecution execArn "500" (unexpectedEventCause ev)]
        store := store }

/-- Input of the initialize-workflow lambda (EventBridge rule target input). -/
structure InitEvent where
  stateMachineArn : String
  name : String
  input : String
deriving DecidableEq, Repr

/-- Result of the external `sfn.startExecution` call; the engine may or may
not return an execution identifier. -/
structure StartExecutionResult where
  executionArn : Option String
deriving DecidableEq, Repr

/-- The initialize-workflow lambda (resources/event_handler/app.ts, second
function `initialize_workflow:app.js`), after the external `startExecution`
call whose result is passed in: if `executionArn` is undefined it throws
(`catch` rethrows, so the error propagates and no item is written);
otherwise it upserts the `(event.name, "Default")` item with the
execution identifier and returns 200. -/
def initHandler (store : Store) (ev : InitEvent) (execution : StartExecutionResult) :
    Except String Nat × Store :=
  match execution.executionArn with
  | none => (Except.error "ExecutionArn is undefined.", store)
  | some arn => (Except.ok 200, updateItemExecArn store ev.name "Default" arn)

/-- The json path the builder's `_entityId` field initializer hardcodes:
`JsonPath.stringAt("$$.Execution.Input.detail.id")`. -/
def defaultEntityIdPath : String := "$$.Execution.Input.detail.id"

/-- `ChoreographyStateBuilderProps`: the table plus the documented optional
default entity-id json path. -/
structure ChoreographyStateBuilderProps where
  taskTokenTable : String
  entityId : Option String
deriving DecidableEq, Repr

/-- The builder's mutable fields. `_name` is declared without an initializer
(undefined until `withName`), hence `Option`. -/
structure ChoreographyStateBuilder where
  taskTokenTable : String
  name : Option String
  entityId : String
  eventName : String
deriving DecidableEq, Repr

/-- The builder constructor stores only the scope and the table; the
`props.entityId` value is never read, so `_entityId` keeps its hardcoded
field-initializer value and `_eventName` starts as `"Default"`. -/
def mkBuilder (props : ChoreographyStateBuilderProps) : ChoreographyStateBuilder :=
  { taskTokenTable := props.taskTokenTable
    name := none
    entityId := defaultEntityIdPath
    eventName := "Default" }

/-- `private reset()`: restore the two field-initializer values. -/
def resetBuilder (b : ChoreographyStateBuilder) : ChoreographyStateBuilder :=
  { b with entityId := defaultEntityIdPath, eventName := "Default" }

def withName (b : ChoreographyStateBuilder) (name : String) : ChoreographyStateBuilder :=
  { b with name := some name }

def withEntityId (b : ChoreographyStateBuilder) (entityId : String) : ChoreographyStateBuilder :=
  { b with entityId := entityId }

def withEventName (b : ChoreographyStateBuilder) (eventName : String) : ChoreographyStateBuilder :=
  { b with eventName := eventName }

/-- The configuration the `ChoreographyState` constructor passes to
`CallAwsService`: id (the builder's name) and the `updateItem` parameters
(table, key `entityId`/`eventName`; the UpdateExpression always sets
`taskToken` to the task token). -/
structure ChoreographyStateConfig where
  name : Option String
  tableName : String
  keyEntityId : String
  keyEventName : String
deriving DecidableEq, Repr

/-- `new ChoreographyState(scope, builder)`: snapshot the builder's current
fields into the task configuration. -/
def mkChoreographyState (b : ChoreographyStateBuilder) : ChoreographyStateConfig :=
  { name := b.name
    tableName := b.taskTokenTable
    keyEntityId := b.entityId
    keyEventName := b.eventName }

/-- `build()`: construct the state from the current fields, then `reset()`.
Returns the state together with the builder as left behind. -/
def build (b : ChoreographyStateBuilder) : ChoreographyStateConfig × ChoreographyStateBuilder :=
  (mkChoreographyState b, resetBuilder b)

/-- Kinds of states in a state-machine definition. `task b` is a state that
is an `instanceof TaskStateBase`, with `b` recording whether it is moreover
an `instanceof ChoreographyState`; the other constructors are the pure
control states, which are not task states. -/
inductive StateKind where
  | task (isChoreographyState : Bool)
  | choice
  | parallel
  | succeed
  | fail
  | pass
deriving DecidableEq, Repr

/-- A state as seen by the validator: its construct id and its kind. -/
structure SFState where
  id : String
  kind : StateKind
deriving DecidableEq, Repr

/-- `s instanceof TaskStateBase`. -/
def instanceOfTaskStateBase : StateKind → Bool
  | .task _ => true
  | _ => false

/-- `s instanceof ChoreographyState` (a subclass of `TaskStateBase`). -/
def instanceOfChoreographyState : StateKind → Bool
  | .task b => b
  | _ => false

/-- The validator's error message for state id `id`. -/
def checkDefinitionMsg (id : String) : String :=
  "State " ++ id ++ " must be an instance of class ChoreographyState."

/-- `Choreography.checkDefinition`, applied to the list that the external
CDK call `State.findReachableStates(definition.startState)` returns (that
library routine is specified to collect exactly the states reachable from
the start state; the validator is parametrized over its result). The
`forEach` throws on the first task state that is not a `ChoreographyState`. -/
def checkDefinition : List SFState → Except String Unit
  | [] => Except.ok ()
  | s :: rest =>
    if instanceOfTaskStateBase s.kind && !instanceOfChoreographyState s.kind then
      Except.error (checkDefinitionMsg s.id)
    else
      checkDefinition rest

/-! ### Helper lemmas shared by the claim theorems -/

theorem mem_queryByEntity {store : Store} {e : String} {r : CorrelationRecord} :
    r ∈ queryByEntity store e ↔ r ∈ store ∧ r.entityId = e := by
  simp [queryByEntity, List.mem_filter]

/-- Per-partition key uniqueness specializes to pairwise-distinct
`eventName`s among the queried items. -/
theorem queryByEntity_pairwise {store : Store} {e : String} (hwf : wellFormed store) :
    (queryByEntity store e).Pairwise (fun a b => a.eventName ≠ b.eventName) := by
  have h1 : (queryByEntity store e).Pairwise
      (fun a b => ¬(a.entityId = b.entityId ∧ a.eventName = b.eventName)) :=
    hwf.filter _
  refine h1.imp_of_mem ?_
  intro a b ha hb hR heq
  have hae : a.entityId = e := (mem_queryByEntity.mp ha).2
  have hbe : b.entityId = e := (mem_queryByEntity.mp hb).2
  exact hR ⟨hae.trans hbe.symm, heq⟩

theorem pairwise_eventName_unique {q : List CorrelationRecord}
    (hpw : q.Pairwise (fun a b => a.eventName ≠ b.eventName)) :
    ∀ x ∈ q, ∀ y ∈ q, x.eventName = y.eventName → x = y := by
  induction hpw with
  | nil => intro x hx; simp at hx
  | @cons r rest h _ ih =>
    intro x hx y hy heq
    rcases List.mem_cons.mp hx with rfl | hx'
    · rcases List.mem_cons.mp hy with rfl | hy'
      · rfl
      · exact absurd heq (h y hy')
    · rcases List.mem_cons.mp hy with rfl | hy'
      · exact absurd heq.symm (h x hx')
      · exact ih x hx' y hy' heq

/-- A record the scan loop exits on is a queried item whose `eventName` is
not `"Default"` and equals the event's. -/
theorem scanLoop_fst_some {ev : DomainEvent} :
    ∀ {q : List CorrelationRecord} {a : Option String} {m : CorrelationRecord},
    (scanLoop ev a q).1 = some m →
    m ∈ q ∧ m.eventName ≠ "Default" ∧ m.eventName = ev.eventName := by
  intro q
  induction q with
  | nil => intro a m h; simp [scanLoop] at h
  | cons r rest ih =>
    intro a m h
    by_cases h1 : r.eventName = "Default"
    · rw [scanLoop, if_pos h1] at h
      obtain ⟨hm, h2, h3⟩ := ih h
      exact ⟨List.mem_cons_of_mem _ hm, h2, h3⟩
    · by_cases h2 : r.eventName = ev.eventName
      · rw [scanLoop, if_neg h1, if_pos h2] at h
        cases h
        exact ⟨List.mem_cons_self _ _, h1, h2⟩
      · rw [scanLoop, if_neg h1, if_neg h2] at h
        obtain ⟨hm, h3, h4⟩ := ih h
        exact ⟨List.mem_cons_of_mem _ hm, h3, h4⟩

/-- The scan loop finds no match exactly when every queried item is either
the Default item or carries a different `eventName` than the event. -/
theorem scanLoop_fst_none {ev : DomainEvent} :
    ∀ {q : List CorrelationRecord} {a : Option String},
    (scanLoop ev a q).1 = none ↔
      ∀ r ∈ q, r.eventName = "Default" ∨ r.eventName ≠ ev.eventName := by
  intro q
  induction q with
  | nil => intro a; simp [scanLoop]
  | cons r rest ih =>
    intro a
    by_cases h1 : r.eventName = "Default"
    · rw [scanLoop, if_pos h1, ih]
      constructor
      · intro H x hx
        rcases List.mem_cons.mp hx with rfl | hx'
        · exact Or.inl h1
        · exact H x hx'
      · intro H x hx
        exact H x (List.mem_cons_of_mem _ hx)
    · by_cases h2 : r.eventName = ev.eventName
      · rw [scanLoop, if_neg h1, if_pos h2]
        constructor
        · intro H; simp at H
        · intro H
          rcases H r (List.mem_cons_self r rest) with h | h
          · exact absurd h h1
          · exact absurd h2 h
      · rw [scanLoop, if_neg h1, if_neg h2, ih]
        constructor
        · intro H x hx
          rcases List.mem_cons.mp hx with rfl | hx'
          · exact Or.inr h2
          · exact H x hx'
        · intro H x hx
          exact H x (List.mem_cons_of_mem _ hx)

/-- If the scan runs to completion over items none of which is Default, the
`executionArn` variable keeps its incoming value. -/
theorem scanLoop_snd_no_default {ev : DomainEvent} :
    ∀ {q : List CorrelationRecord} {a : Option String},
    (∀ r ∈ q, r.eventName ≠ "Default") →
    (scanLoop ev a q).1 = none →
    (scanLoop ev a q).2 = a := by
  intro q
  induction q with
  | nil => intro a _ _; simp [scanLoop]
  | cons r rest ih =>
    intro a hnd hnone
    have h1 : r.eventName ≠ "Default" := hnd r (List.mem_cons_self _ _)
    by_cases h2 : r.eventName = ev.eventName
    · rw [scanLoop, if_neg h1, if_pos h2] at hnone
      simp at hnone
    · rw [scanLoop, if_neg h1, if_neg h2] at hnone ⊢
      exact ih (fun x hx => hnd x (List.mem_cons_of_mem _ hx)) hnone

/-- If the scan runs to completion and a (unique, by pairwise distinctness)
Default item is present, the final `executionArn` variable holds that item's
`executionArn` attribute. -/
theorem scanLoop_snd_default {ev : DomainEvent} {d : CorrelationRecord} :
    ∀ {q : List CorrelationRecord} {a : Option String},
    q.Pairwise (fun x y => x.eventName ≠ y.eventName) →
    (scanLoop ev a q).1 = none →
    d ∈ q → d.eventName = "Default" →
    (scanLoop ev a q).2 = d.executionArn := by
  intro q
  induction q with
  | nil => intro a _ _ hd; simp at hd
  | cons r rest ih =>
    intro a hpw hnone hd hdk
    rw [List.pairwise_cons] at hpw
    by_cases h1 : r.eventName = "Default"
    · have hdr : d = r := by
        rcases List.mem_cons.mp hd with rfl | hd'
        · rfl
        · exact absurd (h1.trans hdk.symm) (hpw.1 d hd')
      rw [scanLoop, if_pos h1] at hnone ⊢
      have hnd : ∀ x ∈ rest, x.eventName ≠ "Default" := by
        intro x hx hxd
        exact hpw.1 x hx (h1.trans hxd.symm)
      rw [scanLoop_snd_no_default hnd hnone, hdr]
    · have hd' : d ∈ rest := by
        rcases List.mem_cons.mp hd with rfl | hd'
        · exact absurd hdk h1
        · exact hd'
      by_cases h2 : r.eventName = ev.eventName
      · rw [scanLoop, if_neg h1, if_pos h2] at hnone
        simp at hnone
      · rw [scanLoop, if_neg h1, if_neg h2] at hnone ⊢
        exact ih hpw.2 hnone hd' hdk

/-- Unfolding of `handler` in the parallel branch when the scan exits on a
match `m`. -/
theorem handler_parallel_some {store : Store} {ev : DomainEvent}
    {m : CorrelationRecord} {a : Option String}
    (hlen : 2 ≤ (queryByEntity store ev.entityId).length)
    (hscan : scanLoop ev none (queryByEntity store ev.entityId) = (some m, a)) :
    handler store ev =
      { response := some 200
        calls := [EngineCall.sendTaskSuccess m.taskToken ev]
        store := deleteItem store ev.entityId ev.eventName } := by
  cases hq : queryByEntity store ev.entityId with
  | nil => rw [hq] at hlen; simp at hlen
  | cons r₁ t =>
    cases t with
    | nil => rw [hq] at hlen; simp at hlen
    | cons r₂ rest =>
      rw [hq] at hscan
      simp only [handler, hq, hscan]

/-- Unfolding of `handler` in the parallel branch when the scan finds no
match and ends with `executionArn = arn`. -/
theorem handler_parallel_none {store : Store} {ev : DomainEvent} {arn : Option String}
    (hlen : 2 ≤ (queryByEntity store ev.entityId).length)
    (hscan : scanLoop ev none (queryByEntity store ev.entityId) = (none, arn)) :
    handler store ev =
      { response := some 200
        calls := [EngineCall.stopExecution arn "500" (unexpectedEventCause ev)]
        store := store } := by
  cases hq : queryByEntity store ev.entityId with
  | nil => rw [hq] at hlen; simp at hlen
  | cons r₁ t =>
    cases t with
    | nil => rw [hq] at hlen; simp at hlen
    | cons r₂ rest =>
      rw [hq] at hscan
      simp only [handler, hq, hscan]

/-- Rebuild the scan result pair from its two projections. -/
theorem scanLoop_eq_pair {ev : DomainEvent} {q : List CorrelationRecord}
    {a : Option String} {f : Option CorrelationRecord} {s : Option String}
    (h1 : (scanLoop ev a q).1 = f) (h2 : (scanLoop ev a q).2 = s) :
    scanLoop ev a q = (f, s) := by
  rw [← h1, ← h2]

/-! ### Claim theorems -/

/-- Claim C1: when the Token Store query for the event's entity returns
exactly one correlation record, the handler resumes that record's token with
the event payload — no condition on the record's `eventName` versus the
event's — and the store is returned unchanged (the record is not deleted). -/
theorem correlator_single_record (store : Store) (ev : DomainEvent)
    (r : CorrelationRecord)
    (h : queryByEntity store ev.entityId = [r]) :
    handler store ev =
      { response := some 200
        calls := [EngineCall.sendTaskSuccess r.taskToken ev]
        store := store } := by
  unfold handler
  rw [h]

/-- Witness for C1: a concrete single-record store whose record's
`eventName` (`"Default"`) differs from the event's (`"Order Confirmed"`)
is resumed anyway and kept. -/
theorem correlator_single_record_witness :
    queryByEntity
        [{ entityId := "order-1", eventName := "Default",
           taskToken := some "T1", executionArn := some "arn-0" }] "order-1" =
      [{ entityId := "order-1", eventName := "Default",
         taskToken := some "T1", executionArn := some "arn-0" }] ∧
    handler
        [{ entityId := "order-1", eventName := "Default",
           taskToken := some "T1", executionArn := some "arn-0" }]
        { entityId := "order-1", eventName := "Order Confirmed", detail := "d" } =
      { response := some 200
        calls := [EngineCall.sendTaskSuccess (some "T1")
          { entityId := "order-1", eventName := "Order Confirmed", detail := "d" }]
        store := [{ entityId := "order-1", eventName := "Default",
                    taskToken := some "T1", executionArn := some "arn-0" }] } :=
  ⟨rfl, correlator_single_record
    [{ entityId := "order-1", eventName := "Default",
       taskToken := some "T1", executionArn := some "arn-0" }]
    { entityId := "order-1", eventName := "Order Confirmed", detail := "d" }
    { entityId := "order-1", eventName := "Default",
      taskToken := some "T1", executionArn := some "arn-0" }
    rfl⟩

/-- Claim C8: with zero pending records for the entity the handler makes no
engine call, mutates nothing, and completes without error (the source
returns `undefined`, modelled as `response = none`). -/
theorem correlator_zero_records (store : Store) (ev : DomainEvent)
    (h : queryByEntity store ev.entityId = []) :
    handler store ev = { response := none, calls := [], store := store } := by
  unfold handler
  rw [h]

/-- Witness for C8 at a store holding only records of another entity. -/
theorem correlator_zero_records_witness :
    queryByEntity
        [{ entityId := "order-1", eventName := "Default",
           taskToken := some "T1", executionArn := some "arn-0" }] "order-2" = [] ∧
    handler
        [{ entityId := "order-1", eventName := "Default",
           taskToken := some "T1", executionArn := some "arn-0" }]
        { entityId := "order-2", eventName := "Order Confirmed", detail := "d" } =
      { response := none
        calls := []
        store := [{ entityId := "order-1", eventName := "Default",
                    taskToken := some "T1", executionArn := some "arn-0" }] } :=
  ⟨rfl, correlator_zero_records _ _ rfl⟩

/-- Claim C3: with more than one pending record, none of which carries the
event's `eventName`, the handler resumes no token, stops the execution
recorded on the (unique) Default record with a cause naming the entity and
the unmatched event name, deletes nothing, and returns success. -/
theorem correlator_parallel_no_match (store : Store) (ev : DomainEvent)
    (d : CorrelationRecord)
    (hwf : wellFormed store)
    (hlen : 2 ≤ (queryByEntity store ev.entityId).length)
    (hd : d ∈ queryByEntity store ev.entityId)
    (hdk : d.eventName = "Default")
    (hnomatch : ∀ r ∈ queryByEntity store ev.entityId, r.eventName ≠ ev.eventName) :
    handler store ev =
      { response := some 200
        calls := [EngineCall.stopExecution d.executionArn "500"
          (unexpectedEventCause ev)]
        store := store } := by
  have hpw := queryByEntity_pairwise (e := ev.entityId) hwf
  have hfst : (scanLoop ev none (queryByEntity store ev.entityId)).1 = none :=
    scanLoop_fst_none.mpr (fun r hr => Or.inr (hnomatch r hr))
  have hsnd : (scanLoop ev none (queryByEntity store ev.entityId)).2 = d.executionArn :=
    scanLoop_snd_default hpw hfst hd hdk
  exact handler_parallel_none hlen (scanLoop_eq_pair hfst hsnd)

/-- Witness for C3: Scenario C of the spec — four pending records for
`car-1`, event `Car Scratched` matches none, the Default record's
execution is stopped and all four records remain. -/
theorem correlator_parallel_no_match_witness :
    wellFormed
        [{ entityId := "car-1", eventName := "Default",
           taskToken := some "T0", executionArn := some "arn-1" },
         { entityId := "car-1", eventName := "Car Cleaned",
           taskToken := some "T1", executionArn := none },
         { entityId := "car-1", eventName := "Car Repaired",
           taskToken := some "T2", executionArn := none },
         { entityId := "car-1", eventName := "Car Priced",
           taskToken := some "T3", executionArn := none }] ∧
    handler
        [{ entityId := "car-1", eventName := "Default",
           taskToken := some "T0", executionArn := some "arn-1" },
         { entityId := "car-1", eventName := "Car Cleaned",
           taskToken := some "T1", executionArn := none },
         { entityId := "car-1", eventName := "Car Repaired",
           taskToken := some "T2", executionArn := none },
         { entityId := "car-1", eventName := "Car Priced",
           taskToken := some "T3", executionArn := none }]
        { entityId := "car-1", eventName := "Car Scratched", detail := "d" } =
      { response := some 200
        calls := [EngineCall.stopExecution (some "arn-1") "500"
          "Unexpected event Car Scratched for EntityId: car-1."]
        store := [{ entityId := "car-1", eventName := "Default",
                    taskToken := some "T0", executionArn := some "arn-1" },
                  { entityId := "car-1", eventName := "Car Cleaned",
                    taskToken := some "T1", executionArn := none },
                  { entityId := "car-1", eventName := "Car Repaired",
                    taskToken := some "T2", executionArn := none },
                  { entityId := "car-1", eventName := "Car Priced",
                    taskToken := some "T3", executionArn := none }] } :=
  ⟨by decide,
   correlator_parallel_no_match _ _
     { entityId := "car-1", eventName := "Default",
       taskToken := some "T0", executionArn := some "arn-1" }
     (by decide) (by decide) (by decide) (by decide) (by decide)⟩

/-- Claim C10 (implicit): in parallel-wait mode an event whose `eventName`
is `"Default"` never resumes a token: the scan classifies the Default record
as the abort target before the match test can apply, so the handler stops
the execution recorded on the Default record even though a record with the
event's `eventName` (the Default record itself) exists. -/
theorem correlator_default_event_aborts (store : Store) (ev : DomainEvent)
    (d : CorrelationRecord)
    (hwf : wellFormed store)
    (hlen : 2 ≤ (queryByEntity store ev.entityId).length)
    (hd : d ∈ queryByEntity store ev.entityId)
    (hdk : d.eventName = "Default")
    (hev : ev.eventName = "Default") :
    handler store ev =
      { response := some 200
        calls := [EngineCall.stopExecution d.executionArn "500"
          (unexpectedEventCause ev)]
        store := store } := by
  have hpw := queryByEntity_pairwise (e := ev.entityId) hwf
  have hfst : (scanLoop ev none (queryByEntity store ev.entityId)).1 = none := by
    refine scanLoop_fst_none.mpr (fun r _ => ?_)
    by_cases h : r.eventName = "Default"
    · exact Or.inl h
    · exact Or.inr (fun hc => h (hc.trans hev))
  have hsnd : (scanLoop ev none (queryByEntity store ev.entityId)).2 = d.executionArn :=
    scanLoop_snd_default hpw hfst hd hdk
  exact handler_parallel_none hlen (scanLoop_eq_pair hfst hsnd)

/-- Witness for C10: two pending records for `car-1`; the event carries
`eventName = "Default"`, equal to the Default record's, yet the handler
stops the execution instead of resuming, and deletes nothing. -/
theorem correlator_default_event_aborts_witness :
    wellFormed
        [{ entityId := "car-1", eventName := "Default",
           taskToken := some "T0", executionArn := some "arn-1" },
         { entityId := "car-1", eventName := "Car Cleaned",
           taskToken := some "T1", executionArn := none }] ∧
    handler
        [{ entityId := "car-1", eventName := "Default",
           taskToken := some "T0", executionArn := some "arn-1" },
         { entityId := "car-1", eventName := "Car Cleaned",
           taskToken := some "T1", executionArn := none }]
        { entityId := "car-1", eventName := "Default", detail := "d" } =
      { response := some 200
        calls := [EngineCall.stopExecution (some "arn-1") "500"
          "Unexpected event Default for EntityId: car-1."]
        store := [{ entityId := "car-1", eventName := "Default",
                    taskToken := some "T0", executionArn := some "arn-1" },
                  { entityId := "car-1", eventName := "Car Cleaned",
                    taskToken := some "T1", executionArn := none }] } :=
  ⟨by decide,
   correlator_default_event_aborts _ _
     { entityId := "car-1", eventName := "Default",
       taskToken := some "T0", executionArn := some "arn-1" }
     (by decide) (by decide) (by decide) (by decide) (by decide)⟩

/-- Counterexample refuting Claim C2 as stated: entity `car-1` has two
pending records, and the Default record's `eventName` equals the event's
(`"Default"`), so "some record's branchKey equals the event's branchKey"
holds; yet the handler resumes no token — it stops the execution — and
deletes nothing. -/
theorem correlator_parallel_match_counterexample :
    (queryByEntity
        [{ entityId := "car-1", eventName := "Default",
           taskToken := some "T0", executionArn := some "arn-1" },
         { entityId := "car-1", eventName := "Car Cleaned",
           taskToken := some "T1", executionArn := none }] "car-1").length = 2 ∧
    (∃ r ∈ queryByEntity
        [{ entityId := "car-1", eventName := "Default",
           taskToken := some "T0", executionArn := some "arn-1" },
         { entityId := "car-1", eventName := "Car Cleaned",
           taskToken := some "T1", executionArn := none }] "car-1",
      r.eventName = "Default") ∧
    handler
        [{ entityId := "car-1", eventName := "Default",
           taskToken := some "T0", executionArn := some "arn-1" },
         { entityId := "car-1", eventName := "Car Cleaned",
           taskToken := some "T1", executionArn := none }]
        { entityId := "car-1", eventName := "Default", detail := "d" } =
      { response := some 200
        calls := [EngineCall.stopExecution (some "arn-1") "500"
          "Unexpected event Default for EntityId: car-1."]
        store := [{ entityId := "car-1", eventName := "Default",
                    taskToken := some "T0", executionArn := some "arn-1" },
                  { entityId := "car-1", eventName := "Car Cleaned",
                    taskToken := some "T1", executionArn := none }] } := by
  refine ⟨by decide,
    ⟨{ entityId := "car-1", eventName := "Default",
       taskToken := some "T0", executionArn := some "arn-1" }, by decide, rfl⟩,
    by decide⟩

/-- Claim C2 (amended): with more than one pending record, distinct branch
keys per entity (the table-key invariant), and a record `m` whose
`eventName` equals the event's, *provided the event's `eventName` is not*
`"Default"`, the handler resumes exactly `m`'s token with the event
payload, deletes exactly the `(entityId, eventName)` record that matched,
leaves every other record (including Default) in place, and returns
success. -/
theorem correlator_parallel_match (store : Store) (ev : DomainEvent)
    (m : CorrelationRecord)
    (hwf : wellFormed store)
    (hlen : 2 ≤ (queryByEntity store ev.entityId).length)
    (hm : m ∈ queryByEntity store ev.entityId)
    (hmk : m.eventName = ev.eventName)
    (hnd : ev.eventName ≠ "Default") :
    handler store ev =
      { response := some 200
        calls := [EngineCall.sendTaskSuccess m.taskToken ev]
        store := deleteItem store ev.entityId ev.eventName } ∧
    m ∉ (handler store ev).store ∧
    ∀ r ∈ store, (r.entityId ≠ ev.entityId ∨ r.eventName ≠ ev.eventName) →
      r ∈ (handler store ev).store := by
  have hpw := queryByEntity_pairwise (e := ev.entityId) hwf
  have hfst : ∃ m', (scanLoop ev none (queryByEntity store ev.entityId)).1 = some m' := by
    cases hsc : (scanLoop ev none (queryByEntity store ev.entityId)).1 with
    | none =>
      rcases scanLoop_fst_none.mp hsc m hm with h | h
      · exact absurd (h.symm.trans hmk) (fun hc => hnd hc.symm)
      · exact absurd hmk h
    | some m' => exact ⟨m', rfl⟩
  obtain ⟨m', hfst⟩ := hfst
  obtain ⟨hm'mem, _, hm'k⟩ := scanLoop_fst_some hfst
  have hmm : m' = m :=
    pairwise_eventName_unique hpw m' hm'mem m hm (hm'k.trans hmk.symm)
  subst hmm
  have hmain : handler store ev =
      { response := some 200
        calls := [EngineCall.sendTaskSuccess m'.taskToken ev]
        store := deleteItem store ev.entityId ev.eventName } :=
    handler_parallel_some hlen
      (scanLoop_eq_pair hfst rfl)
  refine ⟨hmain, ?_, ?_⟩
  · rw [hmain]
    simp only [deleteItem, List.mem_filter]
    intro hc
    have hme : m'.entityId = ev.entityId := (mem_queryByEntity.mp hm'mem).2
    simp [hme, hm'k.trans hmk.symm] at hc
    rw [hmk] at hc
    simp at hc
  · intro r hr hor
    rw [hmain]
    simp only [deleteItem, List.mem_filter]
    refine ⟨hr, ?_⟩
    rcases hor with h | h <;> simp [h]

/-- Witness for amended C2: Scenario B — four pending records for `car-1`,
event `Car Repaired` resumes token `T2` and exactly the matched record is
deleted, the other three remain. -/
theorem correlator_parallel_match_witness :
    wellFormed
        [{ entityId := "car-1", eventName := "Default",
           taskToken := some "T0", executionArn := some "arn-1" },
         { entityId := "car-1", eventName := "Car Cleaned",
           taskToken := some "T1", executionArn := none },
         { entityId := "car-1", eventName := "Car Repaired",
           taskToken := some "T2", executionArn := none },
         { entityId := "car-1", eventName := "Car Priced",
           taskToken := some "T3", executionArn := none }] ∧
    handler
        [{ entityId := "car-1", eventName := "Default",
           taskToken := some "T0", executionArn := some "arn-1" },
         { entityId := "car-1", eventName := "Car Cleaned",
           taskToken := some "T1", executionArn := none },
         { entityId := "car-1", eventName := "Car Repaired",
           taskToken := some "T2", executionArn := none },
         { entityId := "car-1", eventName := "Car Priced",
           taskToken := some "T3", executionArn := none }]
        { entityId := "car-1", eventName := "Car Repaired", detail := "d" } =
      { response := some 200
        calls := [EngineCall.sendTaskSuccess (some "T2")
          { entityId := "car-1", eventName := "Car Repaired", detail := "d" }]
        store := [{ entityId := "car-1", eventName := "Default",
                    taskToken := some "T0", executionArn := some "arn-1" },
                  { entityId := "car-1", eventName := "Car Cleaned",
                    taskToken := some "T1", executionArn := none },
                  { entityId := "car-1", eventName := "Car Priced",
                    taskToken := some "T3", executionArn := none }] } := by
  constructor
  · decide
  · have h := (correlator_parallel_match
      [{ entityId := "car-1", eventName := "Default",
         taskToken := some "T0", executionArn := some "arn-1" },
       { entityId := "car-1", eventName := "Car Cleaned",
         taskToken := some "T1", executionArn := none },
       { entityId := "car-1", eventName := "Car Repaired",
         taskToken := some "T2", executionArn := none },
       { entityId := "car-1", eventName := "Car Priced",
         taskToken := some "T3", executionArn := none }]
      { entityId := "car-1", eventName := "Car Repaired", detail := "d" }
      { entityId := "car-1", eventName := "Car Repaired",
        taskToken := some "T2", executionArn := none }
      (by decide) (by decide) (by decide) (by decide) (by decide)).1
    rw [h]
    decide

/-- Claim C9: over stores whose per-entity branch keys are pairwise
distinct, the single-pass scan is order-independent. For any reordering of
the store (hence of the records the query returns) the handler returns the
same value, makes the same engine calls (same token resumed or same
execution aborted with the same cause), and performs the same deletions
(the resulting stores are reorderings of each other). -/
theorem correlator_order_independent (store₁ store₂ : Store) (ev : DomainEvent)
    (hperm : store₁.Perm store₂) (hwf : wellFormed store₁) :
    (handler store₁ ev).response = (handler store₂ ev).response ∧
    (handler store₁ ev).calls = (handler store₂ ev).calls ∧
    (handler store₁ ev).store.Perm (handler store₂ ev).store := by
  have hq : (queryByEntity store₁ ev.entityId).Perm (queryByEntity store₂ ev.entityId) :=
    hperm.filter _
  have hpw₁ := queryByEntity_pairwise (e := ev.entityId) hwf
  have hpw₂ : (queryByEntity store₂ ev.entityId).Pairwise
      (fun a b => a.eventName ≠ b.eventName) :=
    (List.Perm.pairwise_iff (fun h => Ne.symm h) hq).mp hpw₁
  cases hq1 : queryByEntity store₁ ev.entityId with
  | nil =>
    have hq2 : queryByEntity store₂ ev.entityId = [] := by
      have h := hq
      rw [hq1] at h
      exact h.symm.eq_nil
    simp only [handler, hq1, hq2]
    exact ⟨trivial, trivial, hperm⟩
  | cons r₁ t₁ =>
    cases t₁ with
    | nil =>
      have hq2 : queryByEntity store₂ ev.entityId = [r₁] := by
        have h := hq
        rw [hq1] at h
        exact List.perm_singleton.mp h.symm
      simp only [handler, hq1, hq2]
      exact ⟨trivial, trivial, hperm⟩
    | cons r₂ t₂ =>
      have hlen₁ : 2 ≤ (queryByEntity store₁ ev.entityId).length := by
        rw [hq1]
        simp [List.length_cons]
      have hlen₂ : 2 ≤ (queryByEntity store₂ ev.entityId).length := by
        rw [← hq.length_eq]
        exact hlen₁
      cases hs₁ : scanLoop ev none (queryByEntity store₁ ev.entityId) with
      | mk f₁ a₁ =>
        cases f₁ with
        | some m =>
          have hm : m ∈ queryByEntity store₁ ev.entityId ∧
              m.eventName ≠ "Default" ∧ m.eventName = ev.eventName :=
            scanLoop_fst_some (by rw [hs₁])
          have hm₂ : m ∈ queryByEntity store₂ ev.entityId := hq.mem_iff.mp hm.1
          cases hs₂ : scanLoop ev none (queryByEntity store₂ ev.entityId) with
          | mk f₂ a₂ =>
            cases f₂ with
            | none =>
              exfalso
              rcases scanLoop_fst_none.mp (by rw [hs₂]) m hm₂ with h | h
              · exact hm.2.1 h
              · exact h hm.2.2
            | some m' =>
              have hm' : m' ∈ queryByEntity store₂ ev.entityId ∧
                  m'.eventName ≠ "Default" ∧ m'.eventName = ev.eventName :=
                scanLoop_fst_some (by rw [hs₂])
              have hm'1 : m' ∈ queryByEntity store₁ ev.entityId := hq.mem_iff.mpr hm'.1
              have heq : m' = m :=
                pairwise_eventName_unique hpw₁ m' hm'1 m hm.1 (hm'.2.2.trans hm.2.2.symm)
              subst heq
              rw [handler_parallel_some hlen₁ hs₁, handler_parallel_some hlen₂ hs₂]
              exact ⟨rfl, rfl, hperm.filter _⟩
        | none =>
          have hnone₁ : (scanLoop ev none (queryByEntity store₁ ev.entityId)).1 = none := by
            rw [hs₁]
          have hprop := scanLoop_fst_none.mp hnone₁
          have hnone₂ : (scanLoop ev none (queryByEntity store₂ ev.entityId)).1 = none :=
            scanLoop_fst_none.mpr (fun r hr => hprop r (hq.mem_iff.mpr hr))
          cases hs₂ : scanLoop ev none (queryByEntity store₂ ev.entityId) with
          | mk f₂ a₂ =>
            have hf₂ : f₂ = none := by
              rw [hs₂] at hnone₂
              exact hnone₂
            subst hf₂
            have ha : a₁ = a₂ := by
              by_cases hdef : ∃ d ∈ queryByEntity store₁ ev.entityId, d.eventName = "Default"
              · obtain ⟨d, hd, hdk⟩ := hdef
                have h1 : (scanLoop ev none (queryByEntity store₁ ev.entityId)).2 =
                    d.executionArn := scanLoop_snd_default hpw₁ hnone₁ hd hdk
                have h2 : (scanLoop ev none (queryByEntity store₂ ev.entityId)).2 =
                    d.executionArn :=
                  scanLoop_snd_default hpw₂ hnone₂ (hq.mem_iff.mp hd) hdk
                rw [hs₁] at h1
                rw [hs₂] at h2
                exact h1.trans h2.symm
              · push_neg at hdef
                have h1 := scanLoop_snd_no_default hdef hnone₁
                have h2 := scanLoop_snd_no_default
                  (fun r hr => hdef r (hq.mem_iff.mpr hr)) hnone₂
                rw [hs₁] at h1
                rw [hs₂] at h2
                exact h1.trans h2.symm
            subst ha
            rw [handler_parallel_none hlen₁ hs₁, handler_parallel_none hlen₂ hs₂]
            exact ⟨rfl, rfl, hperm⟩

/-- Witness for C9: a two-record store for `car-1` and its reversal produce
the same calls and response for event `Car Cleaned`. -/
theorem correlator_order_independent_witness :
    ([{ entityId := "car-1", eventName := "Default",
        taskToken := some "T0", executionArn := some "arn-1" },
      { entityId := "car-1", eventName := "Car Cleaned",
        taskToken := some "T1", executionArn := none }] : Store).Perm
      [{ entityId := "car-1", eventName := "Car Cleaned",
         taskToken := some "T1", executionArn := none },
       { entityId := "car-1", eventName := "Default",
         taskToken := some "T0", executionArn := some "arn-1" }] ∧
    (handler
        [{ entityId := "car-1", eventName := "Default",
           taskToken := some "T0", executionArn := some "arn-1" },
         { entityId := "car-1", eventName := "Car Cleaned",
           taskToken := some "T1", executionArn := none }]
        { entityId := "car-1", eventName := "Car Cleaned", detail := "d" }).calls =
      (handler
        [{ entityId := "car-1", eventName := "Car Cleaned",
           taskToken := some "T1", executionArn := none },
         { entityId := "car-1", eventName := "Default",
           taskToken := some "T0", executionArn := some "arn-1" }]
        { entityId := "car-1", eventName := "Car Cleaned", detail := "d" }).calls :=
  ⟨List.Perm.swap _ _ _,
   (correlator_order_independent
     [{ entityId := "car-1", eventName := "Default",
        taskToken := some "T0", executionArn := some "arn-1" },
      { entityId := "car-1", eventName := "Car Cleaned",
        taskToken := some "T1", executionArn := none }]
     [{ entityId := "car-1", eventName := "Car Cleaned",
        taskToken := some "T1", executionArn := none },
      { entityId := "car-1", eventName := "Default",
        taskToken := some "T0", executionArn := some "arn-1" }]
     { entityId := "car-1", eventName := "Car Cleaned", detail := "d" }
     (List.Perm.swap _ _ _) (by decide)).2.1⟩

/-- Claim C6: when the Workflow Engine returns no execution identifier, the
initialize-workflow lambda raises the error to its caller and writes no
record — the store is returned unchanged. -/
theorem initiator_no_execution_arn (store : Store) (ev : InitEvent)
    (execution : StartExecutionResult)
    (h : execution.executionArn = none) :
    initHandler store ev execution =
      (Except.error "ExecutionArn is undefined.", store) := by
  unfold initHandler
  rw [h]

/-- Witness for C6 at a concrete store and start event. -/
theorem initiator_no_execution_arn_witness :
    initHandler
        [{ entityId := "order-1", eventName := "Default",
           taskToken := none, executionArn := some "arn-0" }]
        { stateMachineArn := "sm-arn", name := "order-2", input := "in" }
        { executionArn := none } =
      (Except.error "ExecutionArn is undefined.",
        [{ entityId := "order-1", eventName := "Default",
           taskToken := none, executionArn := some "arn-0" }]) :=
  initiator_no_execution_arn _ _ _ rfl

/-- Claim C4 is a code bug, witnessed here: the builder constructor never
reads `props.entityId`, so a builder configured with a custom default
entity-id path still initializes — and `build()` still resets — its
`entityId` field to the hardcoded `"$$.Execution.Input.detail.id"` path.
A state built without `withEntityId` therefore does NOT use the configured
path, contradicting the props documentation and the claim. -/
theorem builder_ignores_configured_entityId :
    (mkBuilder { taskTokenTable := "Tokens", entityId := some "$.detail.carId" }).entityId =
      defaultEntityIdPath ∧
    (build (withName
        (mkBuilder { taskTokenTable := "Tokens", entityId := some "$.detail.carId" })
        "WaitForConfirmation")).1.keyEntityId = defaultEntityIdPath ∧
    defaultEntityIdPath ≠ "$.detail.carId" ∧
    (build (withEntityId (withName
        (mkBuilder { taskTokenTable := "Tokens", entityId := some "$.detail.carId" })
        "WaitForConfirmation") "$.detail.otherId")).2.entityId = defaultEntityIdPath ∧
    (build (withName
        (mkBuilder { taskTokenTable := "Tokens", entityId := some "$.detail.carId" })
        "WaitForConfirmation")).2.eventName = "Default" ∧
    (build (withName
        (mkBuilder { taskTokenTable := "Tokens", entityId := some "$.detail.carId" })
        "WaitForConfirmation")).2.name = some "WaitForConfirmation" :=
  ⟨rfl, rfl, by decide, rfl, rfl, rfl⟩

/-- Claim C5: the validator, applied to the reachable states collected by
the external traversal, succeeds exactly when no reachable state is a task
state other than a `ChoreographyState`; on failure the error names an
offending state. Pure control states (choice, parallel, succeed, fail,
pass) are not task states and never cause rejection. -/
theorem checkDefinition_spec (reachableStates : List SFState) :
    (checkDefinition reachableStates = Except.ok () ↔
      ∀ s ∈ reachableStates,
        ¬(instanceOfTaskStateBase s.kind = true ∧
          instanceOfChoreographyState s.kind = false)) ∧
    (∀ msg, checkDefinition reachableStates = Except.error msg →
      ∃ s ∈ reachableStates,
        instanceOfTaskStateBase s.kind = true ∧
        instanceOfChoreographyState s.kind = false ∧
        msg = checkDefinitionMsg s.id) := by
  induction reachableStates with
  | nil =>
    constructor
    · simp [checkDefinition]
    · intro msg h
      simp [checkDefinition] at h
  | cons s rest ih =>
    by_cases hb : (instanceOfTaskStateBase s.kind && !instanceOfChoreographyState s.kind) = true
    · rw [Bool.and_eq_true, Bool.not_eq_true'] at hb
      constructor
      · rw [checkDefinition, if_pos (by rw [Bool.and_eq_true, Bool.not_eq_true']; exact hb)]
        constructor
        · intro h
          cases h
        · intro h
          exact absurd ⟨hb.1, hb.2⟩ (h s (List.mem_cons_self _ _))
      · intro msg h
        rw [checkDefinition, if_pos (by rw [Bool.and_eq_true, Bool.not_eq_true']; exact hb)] at h
        cases h
        exact ⟨s, List.mem_cons_self _ _, hb.1, hb.2, rfl⟩
    · have hb' : ¬(instanceOfTaskStateBase s.kind = true ∧
          instanceOfChoreographyState s.kind = false) := by
        rw [Bool.and_eq_true, Bool.not_eq_true'] at hb
        exact hb
      constructor
      · rw [checkDefinition, if_neg hb, ih.1]
        constructor
        · intro H x hx
          rcases List.mem_cons.mp hx with rfl | hx'
          · exact hb'
          · exact H x hx'
        · intro H x hx
          exact H x (List.mem_cons_of_mem _ hx)
      · intro msg h
        rw [checkDefinition, if_neg hb] at h
        obtain ⟨x, hx, h1, h2, h3⟩ := ih.2 msg h
        exact ⟨x, List.mem_cons_of_mem _ hx, h1, h2, h3⟩

/-- Witness for C5: a definition with a reachable plain task state is
rejected with that state's name; one whose only task state is a
`ChoreographyState` (plus pure control states) passes. -/
theorem checkDefinition_spec_witness :
    checkDefinition
        [{ id := "Choice1", kind := StateKind.choice },
         { id := "BadTask", kind := StateKind.task false }] =
      Except.error "State BadTask must be an instance of class ChoreographyState." ∧
    (∃ s ∈ ([{ id := "Choice1", kind := StateKind.choice },
             { id := "BadTask", kind := StateKind.task false }] : List SFState),
      instanceOfTaskStateBase s.kind = true ∧
      instanceOfChoreographyState s.kind = false ∧
      ("State BadTask must be an instance of class ChoreographyState." : String) =
        checkDefinitionMsg s.id) ∧
    checkDefinition
        [{ id := "Choice1", kind := StateKind.choice },
         { id := "GoodWait", kind := StateKind.task true },
         { id := "Done", kind := StateKind.succeed }] = Except.ok () :=
  ⟨rfl,
   (checkDefinition_spec
      [{ id := "Choice1", kind := StateKind.choice },
       { id := "BadTask", kind := StateKind.task false }]).2
     "State BadTask must be an instance of class ChoreographyState." rfl,
   (checkDefinition_spec
      [{ id := "Choice1", kind := StateKind.choice },
       { id := "GoodWait", kind := StateKind.task true },
       { id := "Done", kind := StateKind.succeed }]).1.mpr (by decide)⟩

/-- Under key uniqueness, at most one item carries any given key. -/
theorem countKey_le_one {store : Store} (hwf : wellFormed store) (e k : String) :
    countKey store e k ≤ 1 := by
  induction store with
  | nil => simp [countKey]
  | cons r rest ih =>
    unfold wellFormed at hwf
    rw [List.pairwise_cons] at hwf
    by_cases h : (r.entityId == e && r.eventName == k) = true
    · have hr : r.entityId = e ∧ r.eventName = k := by
        rw [Bool.and_eq_true, beq_iff_eq, beq_iff_eq] at h
        exact h
      have hrest : (rest.filter (fun x => x.entityId == e && x.eventName == k)) = [] := by
        rw [List.filter_eq_nil_iff]
        intro x hx hc
        rw [Bool.and_eq_true, beq_iff_eq, beq_iff_eq] at hc
        exact hwf.1 x hx ⟨hr.1.trans hc.1.symm, hr.2.trans hc.2.symm⟩
      simp [countKey, List.filter_cons, h, hrest]
    · simp only [countKey, List.filter_cons, h, if_false]
      exact ih hwf.2

/-- A key-preserving map leaves every key count unchanged. -/
theorem countKey_map_preserve (store : Store)
    (f : CorrelationRecord → CorrelationRecord)
    (hf : ∀ r, (f r).entityId = r.entityId ∧ (f r).eventName = r.eventName)
    (e k : String) :
    countKey (store.map f) e k = countKey store e k := by
  induction store with
  | nil => rfl
  | cons r rest ih =>
    by_cases h : (r.entityId == e && r.eventName == k) = true
    · have h' : ((f r).entityId == e && (f r).eventName == k) = true := by
        rw [(hf r).1, (hf r).2]
        exact h
      simp only [countKey, List.map_cons, List.filter_cons, h, h', if_true, List.length_cons]
      exact congrArg Nat.succ ih
    · have h' : ¬((f r).entityId == e && (f r).eventName == k) = true := by
        rw [(hf r).1, (hf r).2]
        exact h
      simp only [countKey, List.map_cons, List.filter_cons, h, h', if_false]
      exact ih

/-- The upsert preserves key uniqueness: an existing item is updated in
place with its key intact, a fresh item is only appended when its key was
absent. -/
theorem dynamoUpdateItem_wellFormed {store : Store} {e k : String}
    {upd : CorrelationRecord → CorrelationRecord} {fresh : CorrelationRecord}
    (hupd : ∀ r, (upd r).entityId = r.entityId ∧ (upd r).eventName = r.eventName)
    (hfe : fresh.entityId = e) (hfk : fresh.eventName = k)
    (hwf : wellFormed store) :
    wellFormed (dynamoUpdateItem store e k upd fresh) := by
  have hf : ∀ r : CorrelationRecord,
      (if r.entityId == e && r.eventName == k then upd r else r).entityId = r.entityId ∧
      (if r.entityId == e && r.eventName == k then upd r else r).eventName = r.eventName := by
    intro r
    by_cases h : (r.entityId == e && r.eventName == k) = true
    · simp only [h, if_true]
      exact hupd r
    · simp only [h, if_false]
      exact ⟨rfl, rfl⟩
  unfold dynamoUpdateItem wellFormed
  split
  · rw [List.pairwise_map]
    refine List.Pairwise.imp ?_ hwf
    intro a b hab hc
    exact hab ⟨(hf a).1.symm.trans (hc.1.trans (hf b).1),
               (hf a).2.symm.trans (hc.2.trans (hf b).2)⟩
  · next hany =>
    rw [List.pairwise_append]
    refine ⟨hwf, List.pairwise_singleton _ _, ?_⟩
    intro a ha b hb
    have hb' : b = fresh := by simpa using hb
    subst hb'
    intro hc
    rw [List.any_eq_true] at hany
    push_neg at hany
    apply hany a ha
    rw [Bool.and_eq_true, beq_iff_eq, beq_iff_eq]
    exact ⟨hc.1.trans hfe, hc.2.trans hfk⟩

/-- After an upsert on `(e, k)` over a well-formed store, exactly one item
carries the key `(e, k)`: the write overwrites rather than duplicates. -/
theorem dynamoUpdateItem_countKey {store : Store} {e k : String}
    {upd : CorrelationRecord → CorrelationRecord} {fresh : CorrelationRecord}
    (hupd : ∀ r, (upd r).entityId = r.entityId ∧ (upd r).eventName = r.eventName)
    (hfe : fresh.entityId = e) (hfk : fresh.eventName = k)
    (hwf : wellFormed store) :
    countKey (dynamoUpdateItem store e k upd fresh) e k = 1 := by
  have hf : ∀ r : CorrelationRecord,
      (if r.entityId == e && r.eventName == k then upd r else r).entityId = r.entityId ∧
      (if r.entityId == e && r.eventName == k then upd r else r).eventName = r.eventName := by
    intro r
    by_cases h : (r.entityId == e && r.eventName == k) = true
    · simp only [h, if_true]
      exact hupd r
    · simp only [h, if_false]
      exact ⟨rfl, rfl⟩
  unfold dynamoUpdateItem
  split
  · next hany =>
    rw [countKey_map_preserve store _ hf e k]
    rw [List.any_eq_true] at hany
    obtain ⟨x, hx, hpx⟩ := hany
    have hmem : x ∈ store.filter (fun r => r.entityId == e && r.eventName == k) :=
      List.mem_filter.mpr ⟨hx, hpx⟩
    have h1 : 1 ≤ countKey store e k := by
      have := List.length_pos.mpr (List.ne_nil_of_mem hmem)
      exact this
    have h2 := countKey_le_one hwf e k
    omega
  · next hany =>
    rw [List.any_eq_true] at hany
    push_neg at hany
    have h0 : store.filter (fun r => r.entityId == e && r.eventName == k) = [] := by
      rw [List.filter_eq_nil_iff]
      exact fun x hx => hany x hx
    have hp : (fresh.entityId == e && fresh.eventName == k) = true := by
      rw [Bool.and_eq_true, beq_iff_eq, beq_iff_eq]
      exact ⟨hfe, hfk⟩
    simp [countKey, List.filter_append, h0, List.filter_cons, hp]

/-- Claim C7: on a well-formed store, (a) at most one Default record exists
per entity; (b) both the wait-state entry write and the Initiator's Default
write are keyed upserts that preserve well-formedness and leave exactly one
record at the written key, so repeated wait-state entries (including
sequential waits reusing `"Default"`) overwrite rather than duplicate; and
(c) a successful start performs exactly the single Default upsert for the
instance's entity. -/
theorem default_record_unique (store : Store) (ev : InitEvent)
    (e k t t2 arn e' : String)
    (hwf : wellFormed store) :
    countKey store e' "Default" ≤ 1 ∧
    wellFormed (updateItemToken store e k t) ∧
    countKey (updateItemToken store e k t) e k = 1 ∧
    countKey (updateItemToken (updateItemToken store e k t) e k t2) e k = 1 ∧
    initHandler store ev { executionArn := some arn } =
      (Except.ok 200, updateItemExecArn store ev.name "Default" arn) ∧
    wellFormed (updateItemExecArn store ev.name "Default" arn) ∧
    countKey (updateItemExecArn store ev.name "Default" arn) ev.name "Default" = 1 := by
  have hupdTok : ∀ tok : String, ∀ r : CorrelationRecord,
      ({ r with taskToken := some tok } : CorrelationRecord).entityId = r.entityId ∧
      ({ r with taskToken := some tok } : CorrelationRecord).eventName = r.eventName :=
    fun _ _ => ⟨rfl, rfl⟩
  have hupdArn : ∀ r : CorrelationRecord,
      ({ r with executionArn := some arn } : CorrelationRecord).entityId = r.entityId ∧
      ({ r with executionArn := some arn } : CorrelationRecord).eventName = r.eventName :=
    fun _ => ⟨rfl, rfl⟩
  have hwfTok : wellFormed (updateItemToken store e k t) :=
    dynamoUpdateItem_wellFormed (hupdTok t) rfl rfl hwf
  refine ⟨countKey_le_one hwf e' "Default",
    hwfTok,
    dynamoUpdateItem_countKey (hupdTok t) rfl rfl hwf,
    dynamoUpdateItem_countKey (hupdTok t2) rfl rfl hwfTok,
    rfl,
    dynamoUpdateItem_wellFormed hupdArn rfl rfl hwf,
    dynamoUpdateItem_countKey hupdArn rfl rfl hwf⟩

/-- Witness for C7: starting from a store already holding a Default record
for `car-1`, a second sequential wait-state entry on `(car-1, "Default")`
still leaves exactly one record with that key, and a concrete start
performs the single Default upsert. -/
theorem default_record_unique_witness :
    wellFormed
        [{ entityId := "car-1", eventName := "Default",
           taskToken := none, executionArn := some "arn-1" }] ∧
    countKey
        (updateItemToken
          (updateItemToken
            [{ entityId := "car-1", eventName := "Default",
               taskToken := none, executionArn := some "arn-1" }]
            "car-1" "Default" "T1")
          "car-1" "Default" "T2")
        "car-1" "Default" = 1 ∧
    initHandler
        [{ entityId := "car-1", eventName := "Default",
           taskToken := none, executionArn := some "arn-1" }]
        { stateMachineArn := "sm", name := "car-2", input := "in" }
        { executionArn := some "arn-2" } =
      (Except.ok 200,
        updateItemExecArn
          [{ entityId := "car-1", eventName := "Default",
             taskToken := none, executionArn := some "arn-1" }]
          "car-2" "Default" "arn-2") := by
  have h := default_record_unique
    [{ entityId := "car-1", eventName := "Default",
       taskToken := none, executionArn := some "arn-1" }]
    { stateMachineArn := "sm", name := "car-2", input := "in" }
    "car-1" "Default" "T1" "T2" "arn-2" "car-1" (by decide)
  exact ⟨by decide, h.2.2.2.1, h.2.2.2.2.1⟩

end Choreo
